import Mathlib

/-!
Verification development for the BI-agent Gradio application (`app.py`).

Strings are modelled as lists of Unicode characters (`Str`), matching Python's
view of `str` as a sequence of code points.  Python exceptions are modelled with
`Except PyErr`; the dynamic execution of model-generated chart code is modelled
by an oracle parameter, so that theorems can quantify over every possible
behaviour of `exec`.
-/

namespace BI

abbrev Str := List Char

/-- The whitespace characters stripped by Python's `str.strip()` (ASCII range). -/
def pyIsSpace (c : Char) : Bool :=
  c = ' ' || c = '\t' || c = '\n' || c = '\r' || c = '\x0b' || c = '\x0c'

/-- Python `str.strip()`: remove leading and trailing whitespace. -/
def pyStrip (s : Str) : Str :=
  ((s.dropWhile pyIsSpace).reverse.dropWhile pyIsSpace).reverse

/-- Prefix test on character lists. -/
def isPrefixOfL : Str → Str → Bool
  | [], _ => true
  | _ :: _, [] => false
  | a :: as, b :: bs => a = b && isPrefixOfL as bs

/-- Suffix test on character lists. -/
def isSuffixOfL (pat s : Str) : Bool :=
  isPrefixOfL pat.reverse s.reverse

/-- Python's substring containment test `pat in s`. -/
def hasSub (pat : Str) : Str → Bool
  | [] => isPrefixOfL pat []
  | s@(_ :: cs) => isPrefixOfL pat s || hasSub pat cs

/-- The characters strictly before the first occurrence of `sep` (all of the
string when `sep` does not occur). -/
def takeUntilSub (sep : Str) : Str → Str
  | [] => []
  | s@(c :: cs) => if isPrefixOfL sep s then [] else c :: takeUntilSub sep cs

/-- The suffix after the last occurrence of `sep`; the whole string when `sep`
does not occur.  For a separator that cannot overlap itself (such as
`</thinking_process>`) this is Python's `s.split(sep)[-1]`. -/
def afterLastSub (sep s : Str) : Str :=
  (takeUntilSub sep.reverse s.reverse).reverse

/-- Fuel-driven worker for `replaceSub`; fuel bounds the number of steps,
`s.length` steps always suffice. -/
def replaceFuel (pat repl : Str) : Nat → Str → Str
  | 0, s => s
  | _ + 1, [] => []
  | n + 1, s@(c :: cs) =>
    if pat ≠ [] && isPrefixOfL pat s then repl ++ replaceFuel pat repl n (s.drop pat.length)
    else c :: replaceFuel pat repl n cs

/-- Python `str.replace(pat, repl)`: substitute every non-overlapping
occurrence, scanning left to right (for non-empty `pat`). -/
def replaceSub (pat repl s : Str) : Str := replaceFuel pat repl s.length s

/-- Python `str.split(sep)` for a one-character separator. -/
def splitChar (sep : Char) : Str → List Str
  | [] => [[]]
  | c :: cs =>
    if c = sep then [] :: splitChar sep cs
    else
      match splitChar sep cs with
      | [] => [[c]]
      | seg :: rest => (c :: seg) :: rest

/-- Python `str.strip(x)` for a one-character strip set. -/
def stripChar (x : Char) (s : Str) : Str :=
  ((s.dropWhile (· = x)).reverse.dropWhile (· = x)).reverse

/-- Numeric value of a list of decimal digits. -/
def digitsToNat (ds : Str) : Nat := ds.foldl (fun a c => a * 10 + (c.toNat - 48)) 0

/-- A Python exception, reduced to its `str()` rendering. -/
structure PyErr where
  msg : Str
deriving DecidableEq

/-- Python values produced by `json.loads` and by the result parser.  A float is
kept symbolically as a decimal mantissa and a power-of-ten exponent, which is
exact for every literal the parsers produce. -/
inductive Json where
  | null
  | bool (b : Bool)
  | int (n : Int)
  | float (m : Int) (e : Int)
  | str (s : Str)
  | arr (elems : List Json)
  | obj (fields : List (Str × Json))

/-- Python `dict` insertion: overwrite in place when the key exists, else
append, preserving first-insertion order. -/
def dictInsert (k : Str) (v : Json) : List (Str × Json) → List (Str × Json)
  | [] => [(k, v)]
  | (k', v') :: rest => if k' = k then (k, v) :: rest else (k', v') :: dictInsert k v rest

/-- Association-list lookup with default (keys are unique by construction). -/
def assocGetD (kvs : List (Str × Json)) (k : Str) (d : Json) : Json :=
  match kvs with
  | [] => d
  | (k', v) :: rest => if k' = k then v else assocGetD rest k d

/-- Whether a value is a Python `dict`. -/
def isObj : Json → Bool
  | .obj _ => true
  | _ => false

/-- Total rendering of `dict.get(k, d)`, meaningful on `obj` values. -/
def objGetD (j : Json) (k : Str) (d : Json) : Json :=
  match j with
  | .obj kvs => assocGetD kvs k d
  | _ => d

/-- Python type name, used in `AttributeError` messages. -/
def pyTypeName : Json → Str
  | .null => ("NoneType").data
  | .bool _ => ("bool").data
  | .int _ => ("int").data
  | .float _ _ => ("float").data
  | .str _ => ("str").data
  | .arr _ => ("list").data
  | .obj _ => ("dict").data

/-- Python attribute access `v.get(k, d)`: succeeds on a `dict`, raises
`AttributeError` on every other value. -/
def pyGet (j : Json) (k : Str) (d : Json) : Except PyErr Json :=
  match j with
  | .obj kvs => .ok (assocGetD kvs k d)
  | _ => .error ⟨('\'' :: pyTypeName j ++ ('\'' :: (" object has no attribute ").data)) ++ ('\'' :: ("get").data ++ ['\''])⟩

/-- Python truthiness of a value. -/
def pyTruthy : Json → Bool
  | .null => false
  | .bool b => b
  | .int n => n ≠ 0
  | .float m _ => m ≠ 0
  | .str s => s ≠ []
  | .arr xs => !xs.isEmpty
  | .obj kvs => !kvs.isEmpty

/-! ### A model of `json.loads`

A strict recursive-descent JSON parser over character lists, following the
grammar accepted by Python's `json.loads` with default options: RFC 8259
values, strings with the standard escapes (a lone `\uXXXX` surrogate maps to
the replacement behaviour of `Char.ofNat`, and surrogate pairs are not
recombined), numbers without the non-standard `NaN`/`Infinity` extensions.
Parsing is fuel-driven; every call site supplies fuel exceeding the input
length, which always suffices since each recursive step consumes input. -/

/-- JSON insignificant whitespace. -/
def jsonWs (c : Char) : Bool := c = ' ' || c = '\t' || c = '\n' || c = '\r'

/-- Skip JSON whitespace. -/
def skipWs (s : Str) : Str := s.dropWhile jsonWs

/-- Value of one hexadecimal digit. -/
def hexVal (c : Char) : Option Nat :=
  if '0' ≤ c ∧ c ≤ '9' then some (c.toNat - 48)
  else if 'a' ≤ c ∧ c ≤ 'f' then some (c.toNat - 87)
  else if 'A' ≤ c ∧ c ≤ 'F' then some (c.toNat - 55)
  else none

/-- Single-character JSON string escapes. -/
def escChar : Char → Option Char
  | '"' => some '"'
  | '\\' => some '\\'
  | '/' => some '/'
  | 'b' => some '\x08'
  | 'f' => some '\x0c'
  | 'n' => some '\n'
  | 'r' => some '\r'
  | 't' => some '\t'
  | _ => none

/-- Parse the body of a JSON string after the opening quote, returning the
decoded content and the remainder after the closing quote. -/
def jStringBody : Nat → Str → Option (Str × Str)
  | 0, _ => none
  | _ + 1, [] => none
  | n + 1, c :: cs =>
    if c = '"' then some ([], cs)
    else if c = '\\' then
      match cs with
      | [] => none
      | 'u' :: h1 :: h2 :: h3 :: h4 :: cs3 =>
        match hexVal h1, hexVal h2, hexVal h3, hexVal h4 with
        | some a, some b, some c2, some d =>
          match jStringBody n cs3 with
          | some (body, rest) => some (Char.ofNat (((a * 16 + b) * 16 + c2) * 16 + d) :: body, rest)
          | none => none
        | _, _, _, _ => none
      | e :: cs2 =>
        match escChar e with
        | some ch =>
          match jStringBody n cs2 with
          | some (body, rest) => some (ch :: body, rest)
          | none => none
        | none => none
    else if c.toNat < 32 then none
    else
      match jStringBody n cs with
      | some (body, rest) => some (c :: body, rest)
      | none => none

/-- Parse a JSON number at the head of the input: an integer yields `Json.int`,
a number with a fraction or exponent yields `Json.float` (decimal mantissa and
power-of-ten exponent, exactly as written). -/
def jNumber (s : Str) : Option (Json × Str) :=
  let (sgn, s1) : Int × Str := match s with
    | '-' :: t => (-1, t)
    | _ => (1, s)
  let ip := s1.takeWhile Char.isDigit
  let r1 := s1.dropWhile Char.isDigit
  if ip = [] then none
  else if ip.length > 1 ∧ ip.headD '0' = '0' then none
  else
    let (fp, r2) : Str × Str := match r1 with
      | '.' :: rr => (rr.takeWhile Char.isDigit, rr.dropWhile Char.isDigit)
      | _ => ([], r1)
    if r1 ≠ [] ∧ r1.headD ' ' = '.' ∧ fp = [] then none
    else
      let hasExp := match r2 with
        | 'e' :: _ => true
        | 'E' :: _ => true
        | _ => false
      if hasExp = false then
        if fp = [] then some (.int (sgn * Int.ofNat (digitsToNat ip)), r2)
        else some (.float (sgn * Int.ofNat (digitsToNat (ip ++ fp))) (-(Int.ofNat fp.length)), r2)
      else
        let r3 := r2.drop 1
        let (esgn, r4) : Int × Str := match r3 with
          | '+' :: rr => (1, rr)
          | '-' :: rr => (-1, rr)
          | _ => (1, r3)
        let ed := r4.takeWhile Char.isDigit
        let r5 := r4.dropWhile Char.isDigit
        if ed = [] then none
        else
          some (.float (sgn * Int.ofNat (digitsToNat (ip ++ fp)))
                       (esgn * Int.ofNat (digitsToNat ed) - Int.ofNat fp.length), r5)

/-- Parse the items of a non-empty JSON array (the value parser is passed in);
returns the elements and the remainder after the closing bracket. -/
def jItems (pv : Str → Option (Json × Str)) : Nat → Str → Option (List Json × Str)
  | 0, _ => none
  | n + 1, s =>
    match pv (skipWs s) with
    | none => none
    | some (v, r) =>
      match skipWs r with
      | ',' :: r2 =>
        (match jItems pv n r2 with
         | some (vs, r3) => some (v :: vs, r3)
         | none => none)
      | ']' :: r2 => some ([v], r2)
      | _ => none

/-- Parse the members of a non-empty JSON object; returns the key-value pairs
in textual order and the remainder after the closing brace. -/
def jMembers (pv : Str → Option (Json × Str)) : Nat → Str → Option (List (Str × Json) × Str)
  | 0, _ => none
  | n + 1, s =>
    match skipWs s with
    | '"' :: r =>
      (match jStringBody (r.length + 1) r with
       | none => none
       | some (k, r1) =>
         match skipWs r1 with
         | ':' :: r2 =>
           (match pv (skipWs r2) with
            | none => none
            | some (v, r3) =>
              match skipWs r3 with
              | ',' :: r4 =>
                (match jMembers pv n r4 with
                 | some (ms, r5) => some ((k, v) :: ms, r5)
                 | none => none)
              | '\x7d' :: r4 => some ([(k, v)], r4)
              | _ => none)
         | _ => none)
    | _ => none

/-- Parse one JSON value at the head of the input. -/
def jValue : Nat → Str → Option (Json × Str)
  | 0, _ => none
  | n + 1, s =>
    match s with
    | '\x7b' :: r =>
      (match skipWs r with
       | '\x7d' :: r2 => some (.obj [], r2)
       | r2 =>
         match jMembers (jValue n) (r2.length + 1) r2 with
         | some (ms, rest) =>
           some (.obj (ms.foldl (fun d kv => dictInsert kv.1 kv.2 d) []), rest)
         | none => none)
    | '[' :: r =>
      (match skipWs r with
       | ']' :: r2 => some (.arr [], r2)
       | r2 =>
         match jItems (jValue n) (r2.length + 1) r2 with
         | some (vs, rest) => some (.arr vs, rest)
         | none => none)
    | '"' :: r =>
      (match jStringBody (r.length + 1) r with
       | some (body, rest) => some (.str body, rest)
       | none => none)
    | 't' :: 'r' :: 'u' :: 'e' :: r => some (.bool true, r)
    | 'f' :: 'a' :: 'l' :: 's' :: 'e' :: r => some (.bool false, r)
    | 'n' :: 'u' :: 'l' :: 'l' :: r => some (.null, r)
    | _ => jNumber s

/-- Model of `json.loads`: parse exactly one value surrounded by optional
whitespace; `none` models a raised `JSONDecodeError`. -/
def jsonLoads (s : Str) : Option Json :=
  match jValue (s.length + 1) (skipWs s) with
  | some (v, rest) => if skipWs rest = [] then some v else none
  | none => none

/-! ### The Result Parser (`process_request_async`, strategies 1-3) -/

/-- Model of Python `float(s)` on decimal literals: optional surrounding
whitespace, optional sign, digits with an optional fraction and exponent.  The
result is the exact decimal value as mantissa and power-of-ten exponent.  The
`inf`/`nan` literals and digit-group underscores accepted by Python are treated
as unparseable here; the pipeline's table cells never use them. -/
def pyFloat (s : Str) : Option (Int × Int) :=
  let t := pyStrip s
  let (sgn, t1) : Int × Str := match t with
    | '+' :: r => (1, r)
    | '-' :: r => (-1, r)
    | _ => (1, t)
  let ip := t1.takeWhile Char.isDigit
  let r1 := t1.dropWhile Char.isDigit
  let (fp, r2) : Str × Str := match r1 with
    | '.' :: rr => (rr.takeWhile Char.isDigit, rr.dropWhile Char.isDigit)
    | _ => ([], r1)
  if ip = [] ∧ fp = [] then none
  else
    let m := sgn * Int.ofNat (digitsToNat (ip ++ fp))
    let e0 : Int := -(Int.ofNat fp.length)
    match r2 with
    | [] => some (m, e0)
    | c :: r3 =>
      if c = 'e' ∨ c = 'E' then
        let (esgn, r4) : Int × Str := match r3 with
          | '+' :: rr => (1, rr)
          | '-' :: rr => (-1, rr)
          | _ => (1, r3)
        let ed := r4.takeWhile Char.isDigit
        let r5 := r4.dropWhile Char.isDigit
        if ed = [] ∨ r5 ≠ [] then none
        else some (m, e0 + esgn * Int.ofNat (digitsToNat ed))
      else none

/-- One markdown table cell: coerced to a float when `float()` succeeds, kept
as a string otherwise (`app.py` lines 220-224). -/
def mdCell (v : Str) : Json :=
  match pyFloat v with
  | some (m, e) => .float m e
  | none => .str v

/-- One markdown data row zipped with the headers into a Python dict
(`app.py` lines 217-224). -/
def mdRow (headers values : List Str) : Json :=
  .obj ((headers.zip values).foldl (fun d hv => dictInsert hv.1 (mdCell hv.2) d) [])

/-- The data rows extracted from the lines after header and separator
(`app.py` lines 212-225): skip separator-like lines, keep rows whose cell
count matches the headers and that are not the header row again. -/
def mdDataRows (headers : List Str) (lines : List Str) : List Json :=
  lines.filterMap (fun line =>
    if isPrefixOfL ((":").data) line || hasSub (("---").data) line then none
    else
      let values := (splitChar '|' (stripChar '|' line)).map pyStrip
      if values.length = headers.length ∧ values ≠ headers then some (mdRow headers values)
      else none)

/-- Strategy 2 of the Result Parser (`app.py` lines 203-236): keep the lines
containing `|`, require a header, a separator and at least one data line,
unescape `\_` in header cells, and collect the surviving data rows.  `none`
models the raised `ValueError` that falls through to strategy 3. -/
def markdownTableRows (raw_str : Str) : Option (List Json) :=
  let lines := splitChar '\n' raw_str
  let table_lines := (lines.filter (fun l => hasSub (("|").data) l && !(pyStrip l).isEmpty)).map pyStrip
  match table_lines with
  | h0 :: _ :: rest2 :: restTail =>
    let headers := ((splitChar '|' (stripChar '|' h0)).map pyStrip).map
      (replaceSub (("\\_").data) (("_").data))
    let data_list := mdDataRows headers (rest2 :: restTail)
    if data_list.isEmpty then none else some data_list
  | _ => none

/-- The `re.sub` removing a leading fenced-code marker with a case-insensitive
language tag (`app.py` line 189): three backticks, any ASCII letters, any
whitespace — anchored at the start. -/
def stripLeadFence (s : Str) : Str :=
  if isPrefixOfL (("```").data) s then ((s.drop 3).dropWhile Char.isAlpha).dropWhile pyIsSpace
  else s

/-- The `re.sub` removing a trailing fence marker (`app.py` line 190): any
whitespace then three backticks, anchored at the end.  The input here is
already stripped of trailing whitespace, so the end anchor means the very end
of the string. -/
def stripTrailFence (s : Str) : Str :=
  if isPrefixOfL (("```").data) s.reverse then ((s.reverse.drop 3).dropWhile pyIsSpace).reverse
  else s

/-- Keys of the parsed query-result record. -/
def successKey : Str := ("success").data

/-- The `data` key. -/
def dataKey : Str := ("data").data

/-- The `error` key. -/
def errorKey : Str := ("error").data

/-- The Result Parser (`app.py` lines 180-247): strip the raw string, then try
(1) JSON after removing a fenced-code block, wrapping a parsed list as a
success record; (2) a markdown table; (3) an error record carrying the first
100 characters of the raw string. -/
def parseQueryResults (query_results_str : Str) : Json :=
  let raw_str := pyStrip query_results_str
  let clean_json := stripTrailFence (stripLeadFence raw_str)
  match jsonLoads clean_json with
  | some (.arr xs) => .obj [(successKey, .bool true), (dataKey, .arr xs)]
  | some j => j
  | none =>
    match markdownTableRows raw_str with
    | some data_list => .obj [(successKey, .bool true), (dataKey, .arr data_list)]
    | none =>
      .obj [(successKey, .bool false), (dataKey, .arr []),
            (errorKey, .str ((("Could not parse query results. Output: ").data) ++ raw_str.take 100))]

/-! ### The SQL Text Normalizer (`process_request_async`, lines 166-174) -/

/-- The chain-of-thought closing marker. -/
def tpMarker : Str := ("</thinking_process>").data

/-- The chain-of-thought opening marker. -/
def tpOpenMarker : Str := ("<thinking_process>").data

/-- The SQL Text Normalizer (`app.py` lines 166-174): take the stripped text
after the last `</thinking_process>` marker when present, strip, then — only
when the result starts with a fence marker — remove every occurrence of
` ```sql ` (when so tagged) and ` ``` ` and strip again. -/
def cleanSqlQuery (raw : Str) : Str :=
  let s1 := if hasSub tpMarker raw then pyStrip (afterLastSub tpMarker raw) else raw
  let s2 := pyStrip s1
  if isPrefixOfL (("```sql").data) s2 then
    pyStrip (replaceSub (("```").data) [] (replaceSub (("```sql").data) [] s2))
  else if isPrefixOfL (("```").data) s2 then
    pyStrip (replaceSub (("```").data) [] s2)
  else s2

/-! ### Python `str()` rendering, used by the f-strings of the error path -/

/-- Decimal rendering of the symbolic float as `m` then `e` then exponent;
Python's exact shortest-repr float formatting is approximated by this
unambiguous form, which no claim depends on (the error values reaching the
f-strings are strings). -/
def floatRepr (m e : Int) : Str :=
  (toString m).data ++ ('e' :: (toString e).data)

/-- Comma-space join of rendered items. -/
def joinCommaSep : List Str → Str
  | [] => []
  | [x] => x
  | x :: xs => x ++ ((", ").data) ++ joinCommaSep xs

/-- Python `repr()` of a parsed value (string quote-escaping simplified to
plain quoting; only non-container values reach the f-strings in practice). -/
def pyRepr : Json → Str
  | .null => ("None").data
  | .bool true => ("True").data
  | .bool false => ("False").data
  | .int n => (toString n).data
  | .float m e => floatRepr m e
  | .str s => '\'' :: (s ++ ['\''])
  | .arr xs => '[' :: (joinCommaSep (xs.attach.map fun x => pyRepr x.1) ++ [']'])
  | .obj kvs => '\x7b' :: (joinCommaSep (kvs.attach.map fun kv => '\'' :: (kv.1.1 ++ (("': ").data) ++ pyRepr kv.1.2)) ++ ['\x7d'])
termination_by j => sizeOf j
decreasing_by
· have h := List.sizeOf_lt_of_mem x.2
  simp only [Json.arr.sizeOf_spec]
  omega
· have h := List.sizeOf_lt_of_mem kv.2
  have h2 : sizeOf kv.1.2 < sizeOf kv.1 := by
    obtain ⟨⟨a, b⟩, hm⟩ := kv
    simp only [Prod.mk.sizeOf_spec]
    omega
  simp only [Json.obj.sizeOf_spec]
  omega

/-- Python `str()` of a parsed value, as interpolated by an f-string. -/
def pyStr : Json → Str
  | .str s => s
  | j => pyRepr j

/-! ### The Chart Synthesizer (`process_request_async`, lines 281-316) -/

/-- The Altair chart built by `create_no_data_chart` (`app.py` lines 327-350):
a single centered text mark with fixed styling. -/
structure TextChartSpec where
  message : Str
  size : Nat
  color : Str
  fontWeight : Nat
  font : Str
  width : Nat
  height : Nat
  title : Str
  strokeWidth : Nat
deriving DecidableEq

/-- Model of `create_no_data_chart` (`app.py` lines 327-350). -/
def create_no_data_chart : TextChartSpec :=
  { message := ("No Data to Display for this Query").data
    size := 18
    color := ("#718096").data
    fontWeight := 500
    font := ("Source Code Pro").data
    width := 500
    height := 300
    title := ("Visual Insight Summary").data
    strokeWidth := 0 }

/-- A chart value: either the fixed text placeholder, or an opaque object
produced by dynamically executing model-generated code. -/
inductive Chart where
  | text (spec : TextChartSpec)
  | dynamic (tag : Nat)
deriving DecidableEq

/-- The behaviour of `exec(script, namespace)` followed by
`namespace.get('chart')`: given the cleaned script and the table rows bound
into the namespace, either raise, or return the namespace's `chart` variable
(absent ⇒ `none`).  Quantifying over this oracle quantifies over every
possible behaviour of the executed code. -/
abbrev ExecOracle := Str → List Json → Except PyErr (Option Chart)

/-- The cleanup applied to `chart_spec` before the guard (`app.py` lines
285-293): strip, cut at the last `</thinking_process>` when an opening marker
is present, remove the ` ```python ` and ` ``` ` markers, strip. -/
def cleanChartSpec (chart_spec : Str) : Str :=
  let c1 := pyStrip chart_spec
  let c2 := if hasSub tpOpenMarker c1 then
              (if hasSub tpMarker c1 then pyStrip (afterLastSub tpMarker c1) else c1)
            else c1
  pyStrip (replaceSub (("```").data) [] (replaceSub (("```python").data) [] c2))

/-- The heuristic guard of `app.py` line 296: reject an empty cleaned script,
one starting with `<`, or one without the case-insensitive substring
`import`. -/
def chartGuardRejects (c : Str) : Bool :=
  c.isEmpty || isPrefixOfL (("<").data) c || !hasSub (("import").data) (c.map Char.toLower)

/-- The Chart Synthesizer (`app.py` lines 281-316): for a truthy `chart_spec`,
clean it, return `none` under the guard, otherwise execute it; any raised
exception yields `none`. -/
def synthChart (execO : ExecOracle) (chart_spec : Str) (rows : List Json) : Option Chart :=
  if chart_spec.isEmpty then none
  else
    let c := cleanChartSpec chart_spec
    if chartGuardRejects c then none
    else
      match execO c rows with
      | .ok copt => copt
      | .error _ => none

/-! ### The orchestrator (`process_request_async` and `process_request`) -/

/-- The pipeline state collected from the agent run: a mapping from state keys
to string values. -/
abbrev StateDict := List (Str × Str)

/-- String-valued dict lookup with default, for the pipeline state. -/
def stateGetD (kvs : StateDict) (k d : Str) : Str :=
  match kvs with
  | [] => d
  | (k', v) :: rest => if k' = k then v else stateGetD rest k d

/-- The four outputs of one request: SQL text, optional table rows, optional
chart, and explanation text. -/
structure POut where
  sql : Str
  df : Option (List Json)
  chart : Option Chart
  text : Str

/-- Model of `pd.DataFrame(data_list)` for a truthy `data` value: a list becomes the
table's rows; any non-list value is modelled as a raised constructor error
(no claim exercises pandas' dict-of-columns construction). -/
def jsonToRows (dataJ : Json) : Except PyErr (List Json) :=
  match dataJ with
  | .arr xs => .ok xs
  | _ => .error ⟨("DataFrame constructor not properly called!").data⟩

/-- Model of `df.empty` for a table built from parsed rows: true when there are no rows
or no row contributes a column. -/
def dfEmpty (rows : List Json) : Bool :=
  rows.isEmpty || rows.all (fun r =>
    match r with
    | .obj kvs => kvs.isEmpty
    | .arr xs => xs.isEmpty
    | _ => false)

/-- The Insights composition (`app.py` lines 262-275). -/
def composeInsights (trend_text explanation_text : Str) : Str :=
  let fi := (if !trend_text.isEmpty then
               (("### 📈 Strategic Trends\n").data) ++ trend_text ++ (("\n\n---\n").data)
             else []) ++
            (if !explanation_text.isEmpty then
               (("### 💡 Data Summary\n").data) ++ explanation_text
             else [])
  if fi.isEmpty then ("The query executed successfully but no additional insights were generated.").data
  else fi

/-- The body of `process_request_async` (`app.py` lines 155-319), with the
external agent run's outcome passed in as `pipe` and dynamic execution as
`execO`; a `.error` result models an exception escaping to the outermost
`except` handler. -/
def coreProcess (execO : ExecOracle) (pipe : Except PyErr StateDict) (message : Str) :
    Except PyErr POut :=
  if (pyStrip message).isEmpty then
    .ok ⟨("Error: Please enter a question").data, none, none, ("Error: No question provided").data⟩
  else
    match pipe with
    | .error e => .error e
    | .ok results =>
      let sql_query := cleanSqlQuery (stateGetD results (("sql_query").data) [])
      let query_results_str := stateGetD results (("query_results").data) (("\x7b\x7d").data)
      let query_results := parseQueryResults query_results_str
      match pyGet query_results successKey (.bool false) with
      | .error e => .error e
      | .ok succ =>
        if pyTruthy succ = false then
          match pyGet query_results errorKey (.str (("Unknown error").data)) with
          | .error e => .error e
          | .ok errv =>
            let error_msg := pyStr errv
            .ok ⟨(("-- Error executing query\n").data) ++ sql_query ++ (("\n\n-- Error: ").data) ++ error_msg,
                 none, none, (("Error executing query: ").data) ++ error_msg⟩
        else
          match pyGet query_results dataKey (.arr []) with
          | .error e => .error e
          | .ok dataJ =>
            if pyTruthy dataJ = false then
              .ok ⟨sql_query, some [], none,
                   ("The query executed successfully but returned no data.").data⟩
            else
              match jsonToRows dataJ with
              | .error e => .error e
              | .ok rows =>
                let trend_text := stateGetD results (("trend_insights").data) []
                let explanation_text := stateGetD results (("explanation_text").data) []
                let final_insights := composeInsights trend_text explanation_text
                let chart_spec := stateGetD results (("chart_spec").data) []
                let chart := synthChart execO chart_spec rows
                .ok ⟨sql_query, some rows, chart, final_insights⟩

/-- Model of `process_request_async` (`app.py` lines 138-326): the body with its
outermost `except Exception` boundary, which converts any raised exception
into the four-field error tuple. -/
def process_request_async (execO : ExecOracle) (pipe : Except PyErr StateDict) (message : Str) :
    POut :=
  match coreProcess execO pipe message with
  | .ok out => out
  | .error e =>
    let m := (("Error: ").data) ++ e.msg
    ⟨m, none, none, m⟩

/-- Model of `process_request` (`app.py` lines 352-375): the synchronous wrapper.  It
substitutes the fixed placeholder chart when the table is absent or empty, and
updates the process-wide `current_df_storage` slot; the second component of
the result is the slot's value after the call (the slot is written on every
path of the body; the previous value `prev` is never read). -/
def process_request (execO : ExecOracle) (pipe : Except PyErr StateDict) (message : Str)
    (prev : Option (List Json)) : POut × Option (List Json) :=
  let r := process_request_async execO pipe message
  match r.df with
  | none => (⟨r.sql, none, some (.text create_no_data_chart), r.text⟩, none)
  | some rows =>
    if dfEmpty rows then (⟨r.sql, some rows, some (.text create_no_data_chart), r.text⟩, none)
    else (r, some rows)

/-! ### CSV download (`download_query_results`, lines 378-411) -/

/-- The observable outcome of `download_query_results`: either a returned
message string with no file side effect, or the creation of a timestamped CSV
file holding the stored table (whose path is returned). -/
inductive DownloadResult where
  | message (s : Str)
  | csvFileOf (rows : List Json)

/-- Model of `download_query_results` (`app.py` lines 378-411) as a function of the
process-wide stored table. -/
def download_query_results (storage : Option (List Json)) : DownloadResult :=
  match storage with
  | none => .message (("No data to download. Please run a query first.").data)
  | some rows =>
    if dfEmpty rows then .message (("No data to download. Please run a query first.").data)
    else .csvFileOf rows

/-! ### Abbreviations and spec-side definitions used by the claims -/

/-- The Parsed Query Result of a request, as a function of the collected
pipeline state: the Result Parser applied to the `query_results` entry
(default `'\x7b\x7d'`, per `app.py` line 177). -/
def parsedResultsOf (results : StateDict) : Json :=
  parseQueryResults (stateGetD results (("query_results").data) (("\x7b\x7d").data))

/-- The cleaned SQL of a request: the SQL Text Normalizer applied to the
`sql_query` entry (default the empty string, `app.py` line 164). -/
def cleanedSqlOf (results : StateDict) : Str :=
  cleanSqlQuery (stateGetD results (("sql_query").data) [])

/-- Modelled from the spec's words for the Normalizer (claim C6): return the
substring after the last `</thinking_process>` marker, trimmed, then strip a
leading fence marker (optionally tagged `sql`) and a trailing fence marker,
trimming the result; absence of markers is a no-op. -/
def cleanSqlClaim (raw : Str) : Str :=
  let t := pyStrip (afterLastSub tpMarker raw)
  let t1 := if isPrefixOfL (("```sql").data) t then t.drop 6
            else if isPrefixOfL (("```").data) t then t.drop 3
            else t
  let t2 := if isSuffixOfL (("```").data) t1 then (t1.reverse.drop 3).reverse else t1
  pyStrip t2

/-- The amended description of the Normalizer: the substring after the last
`</thinking_process>` marker, trimmed; then, only when the result begins with
a fence marker, every occurrence of ` ```sql ` (when it begins with
` ```sql `) and of ` ``` ` is removed and the result trimmed again; otherwise
it is returned unchanged. -/
def cleanSqlAmended (raw : Str) : Str :=
  let t := pyStrip (if hasSub tpMarker raw then afterLastSub tpMarker raw else raw)
  if isPrefixOfL (("```sql").data) t then
    pyStrip (replaceSub (("```").data) [] (replaceSub (("```sql").data) [] t))
  else if isPrefixOfL (("```").data) t then
    pyStrip (replaceSub (("```").data) [] t)
  else t

/-! ### Helper lemmas -/

theorem dropWhile_self_eq (p : Char → Bool) (l : Str) :
    (l.dropWhile p).dropWhile p = l.dropWhile p := by
  induction l with
  | nil => rfl
  | cons c cs ih =>
    cases hpc : p c with
    | true => simp [List.dropWhile_cons, hpc, ih]
    | false => simp [List.dropWhile_cons, hpc]

theorem head_not_of_dropWhile_eq (p : Char → Bool) (c : Char) (cs : Str)
    (h : List.dropWhile p (c :: cs) = c :: cs) : p c = false := by
  cases hpc : p c with
  | false => rfl
  | true =>
    rw [List.dropWhile_cons, hpc] at h
    simp only [if_true] at h
    have hlen := (List.dropWhile_sublist (l := cs) p).length_le
    rw [h] at hlen
    simp at hlen

theorem dropWhile_eq_self_mono (p : Char → Bool) (l t : Str)
    (hpre : t <+: l) (hl : l.dropWhile p = l) : t.dropWhile p = t := by
  cases t with
  | nil => rfl
  | cons c cs =>
    obtain ⟨u, hu⟩ := hpre
    have hc : p c = false := by
      apply head_not_of_dropWhile_eq p c (cs ++ u)
      rw [← List.cons_append, hu]
      exact hl
    simp [List.dropWhile_cons, hc]

theorem pyStrip_idem (s : Str) : pyStrip (pyStrip s) = pyStrip s := by
  unfold pyStrip
  have h1 : ((((s.dropWhile pyIsSpace).reverse.dropWhile pyIsSpace).reverse).dropWhile pyIsSpace)
      = ((s.dropWhile pyIsSpace).reverse.dropWhile pyIsSpace).reverse := by
    apply dropWhile_eq_self_mono pyIsSpace (s.dropWhile pyIsSpace)
    · have hsuf := List.dropWhile_suffix (l := (s.dropWhile pyIsSpace).reverse) pyIsSpace
      have hpre := List.reverse_prefix.mpr hsuf
      rwa [List.reverse_reverse] at hpre
    · exact dropWhile_self_eq pyIsSpace s
  rw [h1, List.reverse_reverse, dropWhile_self_eq]

theorem isPrefixOfL_of_append (p q s : Str) (h : isPrefixOfL (p ++ q) s = true) :
    isPrefixOfL p s = true := by
  induction p generalizing s with
  | nil => rfl
  | cons a as ih =>
    cases s with
    | nil => simp [isPrefixOfL] at h
    | cons b bs =>
      simp only [List.cons_append, isPrefixOfL, Bool.and_eq_true, decide_eq_true_eq] at h ⊢
      exact ⟨h.1, ih bs h.2⟩

theorem hasSub_of_isPrefixOfL (p s : Str) (h : isPrefixOfL p s = true) : hasSub p s = true := by
  cases s with
  | nil => simpa [hasSub] using h
  | cons c cs => simp [hasSub, h]

theorem cleanSqlQuery_stripped (s : Str) : pyStrip (cleanSqlQuery s) = cleanSqlQuery s := by
  simp only [cleanSqlQuery]
  split_ifs <;> simp [pyStrip_idem]

theorem pyGet_of_isObj (j : Json) (k : Str) (d : Json) (h : isObj j = true) :
    pyGet j k d = .ok (objGetD j k d) := by
  cases j <;> simp_all [isObj, pyGet, objGetD]

/-! ### Claims -/

/-- C2: any exception raised anywhere in the request-processing body is caught
at the outermost boundary of `process_request_async` and converted into the
four-field tuple `(error_string, null, null, error_string)`; the orchestrator
is a total function and never propagates a raised exception. -/
theorem c2_outer_exception_boundary (execO : ExecOracle) (pipe : Except PyErr StateDict)
    (message : Str) (e : PyErr) (h : coreProcess execO pipe message = .error e) :
    process_request_async execO pipe message =
      ⟨(("Error: ").data) ++ e.msg, none, none, (("Error: ").data) ++ e.msg⟩ := by
  unfold process_request_async
  rw [h]

/-- Witness for C2: a `query_results` string parsing to a bare JSON scalar
makes the body raise `AttributeError` at `.get`, and the boundary returns the
error tuple. -/
theorem c2_outer_exception_boundary_witness :
    coreProcess (fun _ _ => .ok none) (.ok [(("query_results").data, ("3").data)]) (("q").data) =
      .error ⟨("'int' object has no attribute 'get'").data⟩ ∧
    process_request_async (fun _ _ => .ok none)
        (.ok [(("query_results").data, ("3").data)]) (("q").data) =
      ⟨(("Error: ").data) ++ ("'int' object has no attribute 'get'").data, none, none,
       (("Error: ").data) ++ ("'int' object has no attribute 'get'").data⟩ :=
  ⟨rfl, c2_outer_exception_boundary _ _ _ _ rfl⟩

/-- C4: the JSON strategy parses the fence-stripped raw string with
`json.loads`, and a parsed list is wrapped as `{success: true, data: list}`. -/
theorem c4_json_list_strategy (s : Str) (xs : List Json)
    (h : jsonLoads (stripTrailFence (stripLeadFence (pyStrip s))) = some (.arr xs)) :
    parseQueryResults s = .obj [(successKey, .bool true), (dataKey, .arr xs)] := by
  unfold parseQueryResults
  simp only [h]

/-- Witness for C4: the spec's example `'[{"a":1},{"a":2}]'` yields
`{success: true, data: [{a:1},{a:2}]}`. -/
theorem c4_json_list_strategy_witness :
    jsonLoads (stripTrailFence (stripLeadFence (pyStrip (("[\x7b\"a\":1\x7d,\x7b\"a\":2\x7d]").data)))) =
      some (.arr [.obj [(("a").data, .int 1)], .obj [(("a").data, .int 2)]]) ∧
    parseQueryResults (("[\x7b\"a\":1\x7d,\x7b\"a\":2\x7d]").data) =
      .obj [(successKey, .bool true),
            (dataKey, .arr [.obj [(("a").data, .int 1)], .obj [(("a").data, .int 2)]])] :=
  ⟨rfl, c4_json_list_strategy _ _ rfl⟩

/-- C5: the 4-line Markdown table with header `a|b`, a separator, and data
rows `1|x` and `2|y` parses to success with two rows, the `a` cells coerced to
the floats 1.0 and 2.0 and the `b` cells kept as strings. -/
theorem c5_markdown_table_example :
    parseQueryResults (("a|b\n---|---\n1|x\n2|y").data) =
      .obj [(successKey, .bool true),
            (dataKey, .arr [.obj [(("a").data, .float 1 0), (("b").data, .str ("x").data)],
                            .obj [(("a").data, .float 2 0), (("b").data, .str ("y").data)]])] := rfl

/-- C8: when the cleaned charting script is empty, starts with `<`, or lacks
the case-insensitive substring `import`, the Chart Synthesizer returns `none`
under every possible behaviour of dynamic execution — the script is never
executed. -/
theorem c8_guard_blocks_execution (chart_spec : Str) (rows : List Json)
    (h : chartGuardRejects (cleanChartSpec chart_spec) = true) :
    ∀ execO : ExecOracle, synthChart execO chart_spec rows = none := by
  intro execO
  unfold synthChart
  cases hempty : chart_spec.isEmpty with
  | true => simp [hempty]
  | false => simp [hempty, h]

/-- Witness for C8: a script without `import` is rejected even under an oracle
that would produce a chart. -/
theorem c8_guard_blocks_execution_witness :
    chartGuardRejects (cleanChartSpec (("print(1)").data)) = true ∧
    synthChart (fun _ _ => .ok (some (.dynamic 0))) (("print(1)").data) [] = none :=
  ⟨rfl, c8_guard_blocks_execution (("print(1)").data) [] rfl (fun _ _ => .ok (some (.dynamic 0)))⟩

/-- C9: after every completed call of `process_request`, the stored table slot
equals the returned table when that table is non-empty, and is `None` when the
call returned no table or an empty one — independently of the slot's previous
value. -/
theorem c9_storage_tracks_returned_table (execO : ExecOracle) (pipe : Except PyErr StateDict)
    (message : Str) (prev : Option (List Json)) :
    (process_request execO pipe message prev).2 =
      match (process_request execO pipe message prev).1.df with
      | none => none
      | some rows => if dfEmpty rows then none else some rows := by
  unfold process_request
  rcases hdf : (process_request_async execO pipe message).df with _ | rows
  · simp [hdf]
  · cases hde : dfEmpty rows with
    | true => simp [hdf, hde]
    | false => simp [hdf, hde]

/-- C10: with no stored table or an empty one, the CSV download returns the
fixed message (the `DownloadResult.message` outcome raises nothing and creates
no file). -/
theorem c10_download_guard (storage : Option (List Json))
    (h : storage = none ∨ ∃ rows, storage = some rows ∧ dfEmpty rows = true) :
    download_query_results storage =
      .message (("No data to download. Please run a query first.").data) := by
  rcases h with h | ⟨rows, hrows, hde⟩
  · rw [h]; rfl
  · rw [hrows]; unfold download_query_results; simp [hde]

/-- Witness for C10: the empty slot. -/
theorem c10_download_guard_witness :
    ((none : Option (List Json)) = none ∨
      ∃ rows, (none : Option (List Json)) = some rows ∧ dfEmpty rows = true) ∧
    download_query_results none =
      .message (("No data to download. Please run a query first.").data) :=
  ⟨Or.inl rfl, c10_download_guard none (Or.inl rfl)⟩

/-- C1: whenever the Parsed Query Result is a record whose `success` entry is
falsy (in particular the strategy-3 fallback record, or any parsed record with
`success` false or missing), `process_request_async` returns the cleaned SQL
annotated with the `-- Error executing query` header and an `-- Error: <msg>`
comment, no table, no chart, and an error explanation string. -/
theorem c1_parse_failure_output (execO : ExecOracle) (results : StateDict) (message : Str)
    (hmsg : (pyStrip message).isEmpty = false)
    (hobj : isObj (parsedResultsOf results) = true)
    (hsucc : pyTruthy (objGetD (parsedResultsOf results) successKey (.bool false)) = false) :
    process_request_async execO (.ok results) message =
      ⟨(("-- Error executing query\n").data) ++ cleanedSqlOf results ++ (("\n\n-- Error: ").data)
         ++ pyStr (objGetD (parsedResultsOf results) errorKey (.str (("Unknown error").data))),
       none, none,
       (("Error executing query: ").data)
         ++ pyStr (objGetD (parsedResultsOf results) errorKey (.str (("Unknown error").data)))⟩ := by
  unfold parsedResultsOf at hobj hsucc
  have hget1 := pyGet_of_isObj _ successKey (.bool false) hobj
  have hget2 := pyGet_of_isObj _ errorKey (.str (("Unknown error").data)) hobj
  unfold process_request_async coreProcess parsedResultsOf cleanedSqlOf
  simp only [hmsg, Bool.false_eq_true, if_false, hget1, hget2, hsucc, if_true]

/-- Witness for C1: an unparseable raw result ("connection refused") takes the
strategy-3 record and the error path. -/
theorem c1_parse_failure_output_witness :
    ((pyStrip (("q").data)).isEmpty = false ∧
     isObj (parsedResultsOf [(("query_results").data, ("connection refused").data)]) = true ∧
     pyTruthy (objGetD (parsedResultsOf [(("query_results").data, ("connection refused").data)])
       successKey (.bool false)) = false) ∧
    process_request_async (fun _ _ => .ok none)
        (.ok [(("query_results").data, ("connection refused").data)]) (("q").data) =
      ⟨(("-- Error executing query\n").data)
         ++ cleanedSqlOf [(("query_results").data, ("connection refused").data)]
         ++ (("\n\n-- Error: ").data)
         ++ pyStr (objGetD (parsedResultsOf [(("query_results").data, ("connection refused").data)])
              errorKey (.str (("Unknown error").data))),
       none, none,
       (("Error executing query: ").data)
         ++ pyStr (objGetD (parsedResultsOf [(("query_results").data, ("connection refused").data)])
              errorKey (.str (("Unknown error").data)))⟩ :=
  ⟨⟨rfl, rfl, rfl⟩, c1_parse_failure_output _ _ _ rfl rfl rfl⟩

/-- C3: when the Parsed Query Result is successful with empty data, the
complete synchronous handler returns the fixed placeholder chart, clears the
stored slot, and the charting script is never executed (the result is the
same under every execution oracle and every `chart_spec` content). -/
theorem c3_empty_data_placeholder (execO : ExecOracle) (results : StateDict) (message : Str)
    (prev : Option (List Json))
    (hmsg : (pyStrip message).isEmpty = false)
    (hobj : isObj (parsedResultsOf results) = true)
    (hsucc : pyTruthy (objGetD (parsedResultsOf results) successKey (.bool false)) = true)
    (hdata : objGetD (parsedResultsOf results) dataKey (.arr []) = .arr []) :
    process_request execO (.ok results) message prev =
      (⟨cleanedSqlOf results, some [], some (.text create_no_data_chart),
        ("The query executed successfully but returned no data.").data⟩, none) := by
  unfold parsedResultsOf at hobj hsucc hdata
  have hget1 := pyGet_of_isObj _ successKey (.bool false) hobj
  have hget2 := pyGet_of_isObj _ dataKey (.arr []) hobj
  have hasync : process_request_async execO (.ok results) message =
      ⟨cleanedSqlOf results, some [], none,
       ("The query executed successfully but returned no data.").data⟩ := by
    unfold process_request_async coreProcess cleanedSqlOf
    simp only [hmsg, Bool.false_eq_true, if_false, hget1]
    simp only [hsucc, Bool.true_eq_false, if_false]
    simp only [hget2, hdata]
    rfl
  unfold process_request
  rw [hasync]
  rfl

/-- Witness for C3: a raw result `[]` parses as success with no rows; the
placeholder chart is returned even under an oracle that would build a chart
from a non-empty `chart_spec`. -/
theorem c3_empty_data_placeholder_witness :
    ((pyStrip (("q").data)).isEmpty = false ∧
     isObj (parsedResultsOf [(("query_results").data, ("[]").data),
       (("chart_spec").data, ("import altair").data)]) = true ∧
     pyTruthy (objGetD (parsedResultsOf [(("query_results").data, ("[]").data),
       (("chart_spec").data, ("import altair").data)]) successKey (.bool false)) = true ∧
     objGetD (parsedResultsOf [(("query_results").data, ("[]").data),
       (("chart_spec").data, ("import altair").data)]) dataKey (.arr []) = .arr []) ∧
    process_request (fun _ _ => .ok (some (.dynamic 7)))
        (.ok [(("query_results").data, ("[]").data),
              (("chart_spec").data, ("import altair").data)]) (("q").data) none =
      (⟨cleanedSqlOf [(("query_results").data, ("[]").data),
          (("chart_spec").data, ("import altair").data)],
        some [], some (.text create_no_data_chart),
        ("The query executed successfully but returned no data.").data⟩, none) :=
  ⟨⟨rfl, rfl, rfl, rfl⟩, c3_empty_data_placeholder _ _ _ _ rfl rfl rfl rfl⟩

/-- C6, counterexample: the Normalizer does not strip a trailing fence marker
when the string does not begin with one, contradicting the claim's description
(strip leading and trailing fence markers) at the input `"SELECT 1\n```"`. -/
theorem c6_normalizer_counterexample :
    cleanSqlQuery (("SELECT 1\n```").data) = ("SELECT 1\n```").data ∧
    cleanSqlClaim (("SELECT 1\n```").data) = ("SELECT 1").data ∧
    cleanSqlQuery (("SELECT 1\n```").data) ≠ cleanSqlClaim (("SELECT 1\n```").data) :=
  ⟨rfl, rfl, by decide⟩

/-- C6, amended: the Normalizer returns the trimmed substring after the last
`</thinking_process>` marker; then, only when that begins with a fence marker,
removes every ` ```sql `/` ``` ` occurrence and trims; absence of markers is a
no-op; the spec's example still yields `SELECT 1`. -/
theorem c6_normalizer_amended :
    (∀ raw : Str, cleanSqlQuery raw = cleanSqlAmended raw) ∧
    cleanSqlQuery (("<thinking_process>plan</thinking_process>```sql\nSELECT 1\n```").data) =
      ("SELECT 1").data := by
  constructor
  · intro raw
    unfold cleanSqlQuery cleanSqlAmended
    cases h : hasSub tpMarker raw with
    | false => simp [h]
    | true => simp [h, pyStrip_idem]
  · rfl

/-- C7: a string that is an output of the Normalizer and contains neither the
thinking-process marker nor a fence marker is a fixed point of the
Normalizer. -/
theorem c7_normalizer_fixed_point (s : Str)
    (h1 : hasSub tpMarker (cleanSqlQuery s) = false)
    (h2 : hasSub (("```").data) (cleanSqlQuery s) = false) :
    cleanSqlQuery (cleanSqlQuery s) = cleanSqlQuery s := by
  have ht := cleanSqlQuery_stripped s
  have hp3 : isPrefixOfL (("```").data) (cleanSqlQuery s) = false := by
    cases hh : isPrefixOfL (("```").data) (cleanSqlQuery s) with
    | false => rfl
    | true => simp [hasSub_of_isPrefixOfL _ _ hh] at h2
  have hp6 : isPrefixOfL (("```sql").data) (cleanSqlQuery s) = false := by
    cases hh : isPrefixOfL (("```sql").data) (cleanSqlQuery s) with
    | false => rfl
    | true =>
      have h3 : isPrefixOfL (("```").data) (cleanSqlQuery s) = true := by
        apply isPrefixOfL_of_append (("```").data) (("sql").data)
        exact hh
      simp [hasSub_of_isPrefixOfL _ _ h3] at h2
  generalize hts : cleanSqlQuery s = t at h1 ht hp3 hp6
  unfold cleanSqlQuery
  simp only [h1, Bool.false_eq_true, if_false, ht, hp6, hp3]

/-- Witness for C7: a plain SQL string. -/
theorem c7_normalizer_fixed_point_witness :
    (hasSub tpMarker (cleanSqlQuery (("SELECT 1 FROM t").data)) = false ∧
     hasSub (("```").data) (cleanSqlQuery (("SELECT 1 FROM t").data)) = false) ∧
    cleanSqlQuery (cleanSqlQuery (("SELECT 1 FROM t").data)) =
      cleanSqlQuery (("SELECT 1 FROM t").data) :=
  ⟨⟨rfl, rfl⟩, c7_normalizer_fixed_point _ rfl rfl⟩

end BI
